import Mathlib

/-!
# Verification of the Availability Scheduler (`src/source/scheduler.py`)

Shallow embedding of the scheduling subsystem of `hedfones/vibe-server`:

* `split_window`, `get_appointments_by_associate_id`,
  `get_associate_available_windows`, `get_availabilities`
  from `src/source/scheduler.py`;
* `get_going_forward_schedules_by_location_associate`
  from `src/source/database/database.py` (the SQL `select ... where` is
  embedded as a filter over the stored rows);
* `AvailabilityWindow` (with `duration_minutes` and `localize`) and
  `Appointment` from `src/source/model.py`; `Schedule` (with `start_dtz`
  / `end_dtz`) and `Associate` from `src/source/database/model.py`.

Modelling conventions:

* Python timezone-aware datetimes are pairs `AwareDt` of a wall-clock
  reading and a UTC offset, both in whole minutes; the absolute instant
  is `wall - utcoffset`.  Python compares aware datetimes by instant and
  `astimezone` re-expresses the same instant with the target zone's
  offset; both facts are reflected in the embedding.  All instants are
  whole minutes, so `abs(delta.total_seconds()) // 60` is exactly the
  absolute difference of the instants.
* Python exceptions (the `assert` in `get_appointments_by_associate_id`,
  the possible `IndexError` of `list.pop`) are modelled with
  `Except String`.
* The scheduler's collaborators (`DatabaseService`, the calendar client)
  are records of functions; the schedule table backing the SQL query is
  an explicit list of rows.  `datetime.now()` is an explicit `now`
  parameter.
-/

/-- A timezone-aware datetime: wall-clock reading and UTC offset, in
whole minutes.  Mirrors a Python aware `datetime`. -/
structure AwareDt where
  wall : Int
  utcoffset : Int
deriving DecidableEq, Repr

/-- The absolute instant denoted by an aware datetime (minutes since the
epoch).  Python's comparison and subtraction of aware datetimes operate
on this value. -/
def AwareDt.instant (d : AwareDt) : Int :=
  d.wall - d.utcoffset

/-- A timezone, as the function giving the UTC offset (minutes) in force
at each absolute instant (this is what a `pytz` timezone provides,
DST included). -/
def Timezone : Type :=
  Int → Int

/-- Python's `datetime.astimezone(tz)`: re-express the same absolute
instant using the target timezone's offset. -/
def astimezone (d : AwareDt) (tz : Timezone) : AwareDt :=
  { wall := d.instant + tz d.instant, utcoffset := tz d.instant }

/-- `Appointment` from `src/source/model.py`: a busy interval with aware
`start` and `end` datetimes. -/
structure Appointment where
  start : AwareDt
  «end» : AwareDt
deriving DecidableEq, Repr

/-- `AvailabilityWindow` from `src/source/model.py`. -/
structure AvailabilityWindow where
  start_time : AwareDt
  end_time : AwareDt
  associate_id : Option Nat := none
deriving DecidableEq, Repr

/-- The `duration_minutes` property of `AvailabilityWindow`:
`abs((end_time - start_time).total_seconds()) // 60`, exact on
whole-minute instants. -/
def AvailabilityWindow.duration_minutes (w : AvailabilityWindow) : Int :=
  ((w.end_time.instant - w.start_time.instant).natAbs : Int)

/-- `AvailabilityWindow.localize` from `src/source/model.py`: convert
`start_time` and `end_time` to the given timezone with `astimezone`
(the Python method mutates the window; the embedding returns the
updated value). -/
def AvailabilityWindow.localize (w : AvailabilityWindow) (tz : Timezone) :
    AvailabilityWindow :=
  { w with
    start_time := astimezone w.start_time tz
    end_time := astimezone w.end_time tz }

/-- `Schedule` row from `src/source/database/model.py` (naive datetimes
stored in UTC, as whole-minute readings). -/
structure Schedule where
  associate_id : Nat
  location_id : Nat
  start_datetime : Int
  end_datetime : Int
deriving DecidableEq, Repr

/-- `Schedule.start_dtz`: `pytz.UTC.localize(start_datetime)` — attach
offset 0 to the naive reading. -/
def Schedule.start_dtz (s : Schedule) : AwareDt :=
  { wall := s.start_datetime, utcoffset := 0 }

/-- `Schedule.end_dtz`: `pytz.UTC.localize(end_datetime)`. -/
def Schedule.end_dtz (s : Schedule) : AwareDt :=
  { wall := s.end_datetime, utcoffset := 0 }

/-- `Associate` from `src/source/database/model.py` (the scheduler uses
only `id` and `calendar_id`). -/
structure Associate where
  id : Nat
  calendar_id : String
deriving DecidableEq, Repr

/-- `DatabaseService.get_going_forward_schedules_by_location_associate`
from `src/source/database/database.py`: select the stored schedules with
the given associate and location whose `start_datetime` is at or after
`now`. -/
def get_going_forward_schedules_by_location_associate
    (table : List Schedule) (location_id associate_id : Nat) (now : Int) :
    List Schedule :=
  table.filter fun s =>
    s.associate_id == associate_id && s.location_id == location_id &&
      decide (now ≤ s.start_datetime)

/-- The `DatabaseService` collaborator as seen by the scheduler: the
three members it calls.  The schedule query is backed by `schedule_table`. -/
structure DatabaseService where
  get_associate_by_id : Nat → Option Associate
  schedule_table : List Schedule
  get_associates_by_location_product : Nat → Nat → List Associate

/-- The calendar collaborator: `read_appointments(calendar_id, time_min,
time_max)` with the events already converted by `Appointment.from_event`. -/
structure GoogleCalendarOAuth2 where
  read_appointments : String → Int → Int → List Appointment

/-- `Scheduler.split_window` from `src/source/scheduler.py`: up to two
fragments of `window` around the booking `[start_dt, end_dt]`. -/
def split_window (window : AvailabilityWindow) (start_dt end_dt : AwareDt) :
    List AvailabilityWindow :=
  (if window.start_time.instant < start_dt.instant then
    [{ start_time := window.start_time, end_time := start_dt }] else []) ++
  (if end_dt.instant < window.end_time.instant then
    [{ start_time := end_dt, end_time := window.end_time }] else [])

/-- Lines 100–102 of `scheduler.py`: split a window at an appointment and
keep only fragments whose duration meets the product duration. -/
def filteredSplit (window : AvailabilityWindow) (appointment : Appointment)
    (product_duration_minutes : Int) : List AvailabilityWindow :=
  (split_window window appointment.start appointment.«end»).filter fun w =>
    product_duration_minutes ≤ w.duration_minutes

/-- Stable insertion into a list sorted by appointment start instant. -/
def insertByStart (a : Appointment) : List Appointment → List Appointment
  | [] => [a]
  | b :: l =>
    if a.start.instant < b.start.instant then a :: b :: l
    else b :: insertByStart a l

/-- Python's stable `sorted(appointments, key=lambda x: x.start)`. -/
def sortByStart (l : List Appointment) : List Appointment :=
  l.foldl (fun acc a => insertByStart a acc) []

/-- `Scheduler.get_appointments_by_associate_id`: look the associate up,
assert it exists (`.error` models the raised `AssertionError`), read the
calendar over the next 180 days (259200 minutes) and sort by start. -/
def get_appointments_by_associate_id (db : DatabaseService)
    (calendar : GoogleCalendarOAuth2) (now : Int) (associate_id : Nat) :
    Except String (List Appointment) :=
  match db.get_associate_by_id associate_id with
  | none => .error "Associate not found."
  | some associate =>
    let events := calendar.read_appointments associate.calendar_id now (now + 259200)
    .ok (sortByStart events)

/-- The inner loop of lines 89–103 of `scheduler.py` for one appointment:
walk the current window list with its indices, skipping windows with
`appointment.start > window.end_time` or
`appointment.end < window.start_time`; for the others record the index
and the duration-filtered fragments.  Returns
(`split_window_indices`, `extended_windows`) in source order. -/
def collectPass (appointment : Appointment) (product_duration_minutes : Int) :
    List AvailabilityWindow → Nat → List Nat × List AvailabilityWindow
  | [], _ => ([], [])
  | w :: rest, i =>
    let tail := collectPass appointment product_duration_minutes rest (i + 1)
    if w.end_time.instant < appointment.start.instant then tail
    else if appointment.«end».instant < w.start_time.instant then tail
    else (i :: tail.1, filteredSplit w appointment product_duration_minutes ++ tail.2)

/-- Python `list.pop(i)`: remove the element at position `i`, or raise
`IndexError` when `i` is out of range. -/
def popAt (l : List AvailabilityWindow) (i : Nat) :
    Except String (List AvailabilityWindow) :=
  if i < l.length then .ok (l.eraseIdx i) else .error "IndexError: pop index out of range"

/-- Lines 106–107 of `scheduler.py`: pop the recorded indices one after
the other from the (shrinking) list. -/
def popAll (l : List AvailabilityWindow) :
    List Nat → Except String (List AvailabilityWindow)
  | [] => .ok l
  | i :: rest => do
    let l2 ← popAt l i
    popAll l2 rest

/-- One iteration of the outer loop (lines 88–110): collect, pop the
recorded indices, extend with the new fragments. -/
def applyAppointment (product_duration_minutes : Int)
    (windows : List AvailabilityWindow) (appointment : Appointment) :
    Except String (List AvailabilityWindow) := do
  let pass := collectPass appointment product_duration_minutes windows 0
  let remaining ← popAll windows pass.1
  .ok (remaining ++ pass.2)

/-- The whole reduction of lines 87–110: fold the appointment list over
the working window list. -/
def reduceWindowsImpl (windows : List AvailabilityWindow)
    (appointments : List Appointment) (product_duration_minutes : Int) :
    Except String (List AvailabilityWindow) :=
  appointments.foldlM (applyAppointment product_duration_minutes) windows

/-- `Scheduler.get_associate_available_windows`: fetch appointments and
forward schedules, seed the working list from the schedules, run the
reduction and tag every surviving window with the associate id. -/
def get_associate_available_windows (db : DatabaseService)
    (calendar : GoogleCalendarOAuth2) (now : Int)
    (associate_id location_id : Nat) (product_duration_minutes : Int) :
    Except String (List AvailabilityWindow) :=
  match get_appointments_by_associate_id db calendar now associate_id with
  | .error e => .error e
  | .ok appointments =>
    match reduceWindowsImpl
        ((get_going_forward_schedules_by_location_associate db.schedule_table
            location_id associate_id now).map fun s =>
          { start_time := s.start_dtz, end_time := s.end_dtz : AvailabilityWindow })
        appointments product_duration_minutes with
    | .error e => .error e
    | .ok windows =>
      .ok (windows.map fun w => { w with associate_id := some associate_id })

/-- `Scheduler.get_availabilities`: resolve per associate and extend the
result list, in directory order. -/
def get_availabilities (db : DatabaseService) (calendar : GoogleCalendarOAuth2)
    (now : Int) (product_id : Nat) (product_duration_minutes : Int)
    (location_id : Nat) : Except String (List AvailabilityWindow) :=
  (db.get_associates_by_location_product location_id product_id).foldlM
    (fun results associate => do
      let availability ← get_associate_available_windows db calendar now
        associate.id location_id product_duration_minutes
      .ok (results ++ availability))
    []

/-- Strict interval overlap of a window and a busy interval on absolute
instants (a shared boundary instant is not an overlap). -/
def overlapsBusy (w : AvailabilityWindow) (a : Appointment) : Bool :=
  decide (a.start.instant < w.end_time.instant) &&
    decide (w.start_time.instant < a.«end».instant)

deriving instance DecidableEq for Except

/-- Reference splitter, following the spec's words (§4.1 Window
Splitter): if `busy` does not overlap `window` under half-open
semantics, return `[window]` unchanged; otherwise keep the
duration-filtered fragments.  The fragments themselves are those of the
source's `split_window`, with which the spec agrees verbatim. -/
def refSplit (window : AvailabilityWindow) (busy : Appointment)
    (minDuration : Int) : List AvailabilityWindow :=
  if busy.«end».instant ≤ window.start_time.instant ∨
      window.end_time.instant ≤ busy.start.instant then [window]
  else (split_window window busy.start busy.«end»).filter fun w =>
    minDuration ≤ w.duration_minutes

/-- Reference reduction, following the spec's words (§4.2): for each
busy interval in order, replace the whole working list by the
concatenation of `refSplit` over every window currently in it. -/
def refResolve (windows : List AvailabilityWindow)
    (busyIntervals : List Appointment) (minDuration : Int) :
    List AvailabilityWindow :=
  busyIntervals.foldl
    (fun ws busy => ws.flatMap fun w => refSplit w busy minDuration) windows

/-- Aware datetime at UTC offset 0, for concrete inputs. -/
def dt (x : Int) : AwareDt := ⟨x, 0⟩

/-- Untagged window on UTC minute instants, for concrete inputs. -/
def mkW (a b : Int) : AvailabilityWindow :=
  { start_time := dt a, end_time := dt b }

/-- Busy interval on UTC minute instants, for concrete inputs. -/
def mkA (a b : Int) : Appointment := ⟨dt a, dt b⟩

/-- Database with one associate (id 1, location 2) whose schedule holds
three disjoint windows; used for the stale-index pop behaviour. -/
def dbPop : DatabaseService :=
  { get_associate_by_id := fun i => if i == 1 then some ⟨1, "cal-1"⟩ else none
    schedule_table := [⟨1, 2, 0, 10⟩, ⟨1, 2, 20, 30⟩, ⟨1, 2, 100, 110⟩]
    get_associates_by_location_product := fun _ _ => [⟨1, "cal-1"⟩] }

/-- Calendar with a single booking 5–25 overlapping the first two
schedule windows of `dbPop`. -/
def calPop : GoogleCalendarOAuth2 :=
  { read_appointments := fun _ _ _ => [mkA 5 25] }

/-- Database with one short schedule window (duration 10 minutes). -/
def dbShort : DatabaseService :=
  { get_associate_by_id := fun i => if i == 1 then some ⟨1, "cal-1"⟩ else none
    schedule_table := [⟨1, 2, 0, 10⟩]
    get_associates_by_location_product := fun _ _ => [⟨1, "cal-1"⟩] }

/-- Calendar with no bookings. -/
def calEmpty : GoogleCalendarOAuth2 :=
  { read_appointments := fun _ _ _ => [] }

/-- C1: the claimed Resolver invariants fail on the code.  With schedule
windows 0–10, 20–30, 100–110 and the single busy interval 5–25
(minimum duration 3), the stale-index pops remove 100–110 instead of
20–30, so the returned list still contains the window 20–30, which
overlaps the busy interval.  Independently, with a 10-minute schedule
window, no busy intervals and minimum duration 20, the short window is
returned untouched, violating the minimum-duration invariant. -/
theorem c1_resolver_invariants_fail :
    get_associate_available_windows dbPop calPop 0 1 2 3 =
      .ok [{ start_time := dt 20, end_time := dt 30, associate_id := some 1 },
           { start_time := dt 0, end_time := dt 5, associate_id := some 1 },
           { start_time := dt 25, end_time := dt 30, associate_id := some 1 }]
    ∧ overlapsBusy { start_time := dt 20, end_time := dt 30, associate_id := some 1 }
        (mkA 5 25) = true
    ∧ get_associate_available_windows dbShort calEmpty 0 1 2 20 =
      .ok [{ start_time := dt 0, end_time := dt 10, associate_id := some 1 }]
    ∧ AvailabilityWindow.duration_minutes
        { start_time := dt 0, end_time := dt 10, associate_id := some 1 } < 20 := by
  refine ⟨rfl, by decide, rfl, by decide⟩

/-- C2: the in-place index-based mutation of lines 87–110 does not
return the same multiset as the pure reference reduction.  At windows
0–10, 20–30, 100–110 with busy interval 5–25 the implementation keeps
20–30 and loses 100–110 while the reference keeps 100–110 and drops
20–30; and at two windows both overlapping the busy interval 0–40 the
implementation raises `IndexError` from `pop` while the reference
returns the empty list. -/
theorem c2_impl_differs_from_reference_reduce :
    reduceWindowsImpl [mkW 0 10, mkW 20 30, mkW 100 110] [mkA 5 25] 3 =
      .ok [mkW 20 30, mkW 0 5, mkW 25 30]
    ∧ refResolve [mkW 0 10, mkW 20 30, mkW 100 110] [mkA 5 25] 3 =
      [mkW 0 5, mkW 25 30, mkW 100 110]
    ∧ ¬ List.Perm [mkW 20 30, mkW 0 5, mkW 25 30] [mkW 0 5, mkW 25 30, mkW 100 110]
    ∧ reduceWindowsImpl [mkW 0 10, mkW 20 30] [mkA 0 40] 3 =
      .error "IndexError: pop index out of range"
    ∧ refResolve [mkW 0 10, mkW 20 30] [mkA 0 40] 3 = [] := by
  refine ⟨rfl, rfl, by decide, rfl, rfl⟩

/-- C4 counterexample: window 0–10 and busy interval 10–30 touch only at
the boundary instant 10, so under half-open semantics they do not
overlap and the claim says the window survives unchanged; but with
minimum duration 20 the code re-emits the window as a fragment, filters
it out, and returns the empty list. -/
theorem c4_boundary_window_dropped :
    (mkW 0 10).end_time.instant ≤ (mkA 10 30).start.instant
    ∧ reduceWindowsImpl [mkW 0 10] [mkA 10 30] 20 = .ok []
    ∧ reduceWindowsImpl [mkW 0 10] [mkA 10 30] 20 ≠ .ok [mkW 0 10] := by
  refine ⟨by decide, rfl, fun h => ?_⟩
  rw [show reduceWindowsImpl [mkW 0 10] [mkA 10 30] 20 = .ok [] from rfl] at h
  exact absurd (Except.ok.inj h) (by decide)

/-- Database for the spec's Scenario B: associate 1 at location 2 with
the single schedule window 09:00–12:00 (minutes 540–720). -/
def dbScenB : DatabaseService :=
  { get_associate_by_id := fun i => if i == 1 then some ⟨1, "cal-1"⟩ else none
    schedule_table := [⟨1, 2, 540, 720⟩]
    get_associates_by_location_product := fun _ _ => [⟨1, "cal-1"⟩] }

/-- Calendar for Scenario B: bookings 09:30–10:00 (570–600) and
10:15–10:45 (615–645). -/
def calScenB : GoogleCalendarOAuth2 :=
  { read_appointments := fun _ _ _ => [mkA 570 600, mkA 615 645] }

/-- C5: Scenario B.  Schedule 09:00–12:00, busy 09:30–10:00 and
10:15–10:45, minimum duration 20 → exactly 09:00–09:30 and 10:45–12:00
(the 15-minute gap 10:00–10:15 is dropped as below the minimum). -/
theorem c5_scenario_b :
    get_associate_available_windows dbScenB calScenB 0 1 2 20 =
      .ok [{ start_time := dt 540, end_time := dt 570, associate_id := some 1 },
           { start_time := dt 645, end_time := dt 720, associate_id := some 1 }] := rfl

/-- C6 counterexample: a stored schedule for associate 1 at location 2
running from minute −10 to minute 50 is already in progress at
`now = 0` (its end 50 is after `now`), yet the fetch returns the empty
list, because the query filters on `start_datetime ≥ now`. -/
theorem c6_in_progress_window_excluded :
    get_going_forward_schedules_by_location_associate
      [{ associate_id := 1, location_id := 2, start_datetime := -10, end_datetime := 50 }] 2 1 0 = []
    ∧ (0 : Int) <
      ({ associate_id := 1, location_id := 2, start_datetime := -10, end_datetime := 50 } : Schedule).end_datetime := by
  refine ⟨rfl, by decide⟩

/-- C6 amended: the fetch returns exactly the stored rows with the given
associate id and location id whose start is at or after `now`; a window
already in progress (started strictly before `now`) is excluded. -/
theorem c6_start_filter_membership (table : List Schedule)
    (location_id associate_id : Nat) (now : Int) (s : Schedule) :
    s ∈ get_going_forward_schedules_by_location_associate table location_id associate_id now ↔
      s ∈ table ∧ s.associate_id = associate_id ∧ s.location_id = location_id ∧
        now ≤ s.start_datetime := by
  simp [get_going_forward_schedules_by_location_associate, List.mem_filter,
    Bool.and_eq_true, beq_iff_eq, decide_eq_true_eq, and_assoc]

/-- C8 counterexample: given a database whose associate lookup finds
nothing, the engine's own appointment fetch raises the not-found
assertion — the engine does look the provider up and surfaces NotFound
internally. -/
theorem c8_engine_raises_not_found :
    get_appointments_by_associate_id
      { get_associate_by_id := fun _ => none, schedule_table := [],
        get_associates_by_location_product := fun _ _ => [] }
      calEmpty 0 1 = .error "Associate not found." := rfl

/-- C9: localization leaves the absolute instants of both boundaries and
the provider tag unchanged; only the stored offset becomes the target
timezone's offset at each instant. -/
theorem c9_localize_preserves_instants (w : AvailabilityWindow) (tz : Timezone) :
    (w.localize tz).start_time.instant = w.start_time.instant
    ∧ (w.localize tz).end_time.instant = w.end_time.instant
    ∧ (w.localize tz).start_time.utcoffset = tz w.start_time.instant
    ∧ (w.localize tz).end_time.utcoffset = tz w.end_time.instant
    ∧ (w.localize tz).associate_id = w.associate_id := by
  refine ⟨?_, ?_, rfl, rfl, rfl⟩ <;>
    simp [AvailabilityWindow.localize, astimezone, AwareDt.instant]

/-- C8 amended: the engine's appointment fetch does look the provider up
and raises the not-found assertion exactly when the database lookup
returns nothing; the Resolver is insensitive to the provider-directory
collaborator (it never resolves the bookable item or the provider set). -/
theorem c8_notfound_iff_lookup_fails (db : DatabaseService)
    (calendar : GoogleCalendarOAuth2) (now : Int) (associate_id : Nat) :
    ((∃ msg, get_appointments_by_associate_id db calendar now associate_id = .error msg) ↔
      db.get_associate_by_id associate_id = none)
    ∧ ∀ f location_id product_duration_minutes,
        get_associate_available_windows
          { db with get_associates_by_location_product := f } calendar now
          associate_id location_id product_duration_minutes =
        get_associate_available_windows db calendar now associate_id location_id
          product_duration_minutes := by
  constructor
  · cases h : db.get_associate_by_id associate_id <;>
      simp [get_appointments_by_associate_id, h]
  · intro f location_id product_duration_minutes
    rfl

/-- C10: when the provider directory lists the same associate twice, the
Aggregator resolves it once per occurrence and the output contains its
windows once per occurrence. -/
theorem c10_duplicate_provider_duplicates_windows (db : DatabaseService)
    (calendar : GoogleCalendarOAuth2) (now : Int)
    (product_id : Nat) (product_duration_minutes : Int) (location_id : Nat)
    (a : Associate) (ws : List AvailabilityWindow)
    (hdir : db.get_associates_by_location_product location_id product_id = [a, a])
    (hres : get_associate_available_windows db calendar now a.id location_id
      product_duration_minutes = .ok ws) :
    get_availabilities db calendar now product_id product_duration_minutes location_id =
      .ok (ws ++ ws) := by
  simp [get_availabilities, hdir, List.foldlM, hres]
  rfl

/-- C3: under well-formedness and overlap, the duration-filtered split
contains exactly the fragment `(window.start, busy.start)` when
`busy.start > window.start` and `(busy.end, window.end)` when
`busy.end < window.end`, each kept iff its duration reaches the
minimum; a covering busy interval leaves nothing and a strictly
interior one leaves both fragments. -/
theorem c3_split_fragments (w : AvailabilityWindow) (a : Appointment)
    (minDur : Int) (f : AvailabilityWindow)
    (hw : w.start_time.instant < w.end_time.instant)
    (ha : a.start.instant < a.«end».instant)
    (hov : a.start.instant < w.end_time.instant ∧ w.start_time.instant < a.«end».instant) :
    (f ∈ filteredSplit w a minDur ↔
      ((w.start_time.instant < a.start.instant ∧
          f = { start_time := w.start_time, end_time := a.start })
        ∨ (a.«end».instant < w.end_time.instant ∧
          f = { start_time := a.«end», end_time := w.end_time }))
      ∧ minDur ≤ f.duration_minutes)
    ∧ (a.start.instant ≤ w.start_time.instant → w.end_time.instant ≤ a.«end».instant →
        split_window w a.start a.«end» = [])
    ∧ (w.start_time.instant < a.start.instant → a.«end».instant < w.end_time.instant →
        split_window w a.start a.«end» =
          [{ start_time := w.start_time, end_time := a.start },
           { start_time := a.«end», end_time := w.end_time }]) := by
  refine ⟨?_, ?_, ?_⟩
  · simp only [filteredSplit, split_window, List.mem_filter, List.mem_append,
      decide_eq_true_eq, and_congr_left_iff]
    intro hdur
    split_ifs with h1 h2 h2 <;> simp_all
  · intro h1 h2
    simp only [split_window]
    rw [if_neg (by omega), if_neg (by omega)]
    rfl
  · intro h1 h2
    simp only [split_window]
    rw [if_pos h1, if_pos h2]
    rfl

/-- C4 amended: a window strictly clear of the busy interval survives
unchanged, but a window touching the busy interval exactly at a
boundary instant takes the split path: it is re-emitted as a single
fragment covering the same interval and kept only if its duration
reaches the minimum. -/
theorem c4_split_step_boundary (w : AvailabilityWindow) (a : Appointment)
    (minDur : Int)
    (hw : w.start_time.instant < w.end_time.instant)
    (ha : a.start.instant < a.«end».instant) :
    ((a.«end».instant < w.start_time.instant ∨ w.end_time.instant < a.start.instant) →
      reduceWindowsImpl [w] [a] minDur = .ok [w])
    ∧ (a.«end».instant = w.start_time.instant →
      reduceWindowsImpl [w] [a] minDur =
        .ok (if minDur ≤ w.duration_minutes then
          [{ start_time := a.«end», end_time := w.end_time }] else []))
    ∧ (a.start.instant = w.end_time.instant →
      reduceWindowsImpl [w] [a] minDur =
        .ok (if minDur ≤ w.duration_minutes then
          [{ start_time := w.start_time, end_time := a.start }] else [])) := by
  refine ⟨?_, ?_, ?_⟩
  · intro h
    simp only [reduceWindowsImpl, List.foldlM, applyAppointment, collectPass]
    rcases h with h | h
    · rw [if_neg (by omega), if_pos (by omega)]
      rfl
    · rw [if_pos (by omega)]
      rfl
  · intro h
    simp only [reduceWindowsImpl, List.foldlM, applyAppointment, collectPass,
      filteredSplit, split_window]
    rw [if_neg (by omega), if_neg (by omega), if_neg (by omega), if_pos (by omega)]
    have hdur : AvailabilityWindow.duration_minutes
        { start_time := a.«end», end_time := w.end_time } = w.duration_minutes := by
      simp [AvailabilityWindow.duration_minutes, h]
    simp only [List.nil_append, List.filter, hdur]
    by_cases hmin : minDur ≤ w.duration_minutes
    · rw [if_pos hmin]
      simp [popAll, popAt, decide_eq_true_eq, hmin]
      rfl
    · rw [if_neg hmin]
      simp [popAll, popAt, decide_eq_true_eq, hmin]
      rfl
  · intro h
    simp only [reduceWindowsImpl, List.foldlM, applyAppointment, collectPass,
      filteredSplit, split_window]
    rw [if_neg (by omega), if_neg (by omega), if_pos (by omega), if_neg (by omega)]
    have hdur : AvailabilityWindow.duration_minutes
        { start_time := w.start_time, end_time := a.start } = w.duration_minutes := by
      simp [AvailabilityWindow.duration_minutes, h]
    simp only [List.append_nil, List.filter, hdur]
    by_cases hmin : minDur ≤ w.duration_minutes
    · rw [if_pos hmin]
      simp [popAll, popAt, decide_eq_true_eq, hmin]
      rfl
    · rw [if_neg hmin]
      simp [popAll, popAt, decide_eq_true_eq, hmin]
      rfl

/-- The per-provider results of the Aggregator, in directory order:
`mapResolve` runs the Resolver once per listed associate (once per
occurrence) and returns the list of per-provider window lists. -/
def mapResolve (db : DatabaseService) (calendar : GoogleCalendarOAuth2)
    (now : Int) (product_duration_minutes : Int) (location_id : Nat) :
    List Associate → Except String (List (List AvailabilityWindow))
  | [] => .ok []
  | a :: l => do
    let ws ← get_associate_available_windows db calendar now a.id location_id
      product_duration_minutes
    let rest ← mapResolve db calendar now product_duration_minutes location_id l
    .ok (ws :: rest)

theorem foldlM_avail_eq_mapResolve (db : DatabaseService)
    (calendar : GoogleCalendarOAuth2) (now : Int)
    (product_duration_minutes : Int) (location_id : Nat) :
    ∀ (l : List Associate) (acc : List AvailabilityWindow),
      l.foldlM (fun results associate => do
          let availability ← get_associate_available_windows db calendar now
            associate.id location_id product_duration_minutes
          Except.ok (results ++ availability)) acc
      = (mapResolve db calendar now product_duration_minutes location_id l).map
          fun ls => acc ++ ls.flatten
  | [], acc => by
    simp [List.foldlM, mapResolve, Except.map]
    rfl
  | a :: l, acc => by
    cases h : get_associate_available_windows db calendar now a.id location_id
        product_duration_minutes with
    | error e =>
      simp [List.foldlM, mapResolve, h, Except.map]
      rfl
    | ok v =>
      have ih := foldlM_avail_eq_mapResolve db calendar now product_duration_minutes
        location_id l (acc ++ v)
      cases h2 : mapResolve db calendar now product_duration_minutes location_id l with
      | error e =>
        simp [List.foldlM, mapResolve, h, h2, Except.map] at ih ⊢
        simpa using ih
      | ok vs =>
        simp [List.foldlM, mapResolve, h, h2, Except.map, List.append_assoc] at ih ⊢
        simpa [List.append_assoc] using ih

/-- C7: the aggregate result is the flat concatenation of the
per-provider results, and every window produced by the Resolver carries
the id of the provider whose schedule produced it. -/
theorem c7_tagged_concatenation (db : DatabaseService)
    (calendar : GoogleCalendarOAuth2) (now : Int) (product_id : Nat)
    (product_duration_minutes : Int) (location_id associate_id : Nat)
    (ws : List AvailabilityWindow) (w : AvailabilityWindow)
    (hres : get_associate_available_windows db calendar now associate_id
      location_id product_duration_minutes = .ok ws)
    (hmem : w ∈ ws) :
    (get_availabilities db calendar now product_id product_duration_minutes location_id =
      (mapResolve db calendar now product_duration_minutes location_id
        (db.get_associates_by_location_product location_id product_id)).map
        List.flatten)
    ∧ w.associate_id = some associate_id := by
  constructor
  · rw [get_availabilities, foldlM_avail_eq_mapResolve]
    cases mapResolve db calendar now product_duration_minutes location_id
        (db.get_associates_by_location_product location_id product_id) with
    | error e => rfl
    | ok vs => simp [Except.map]
  · unfold get_associate_available_windows at hres
    cases h1 : get_appointments_by_associate_id db calendar now associate_id with
    | error e =>
      rw [h1] at hres
      cases hres
    | ok appts =>
      rw [h1] at hres
      dsimp only at hres
      cases h2 : reduceWindowsImpl
          ((get_going_forward_schedules_by_location_associate db.schedule_table
              location_id associate_id now).map fun s =>
            { start_time := s.start_dtz, end_time := s.end_dtz : AvailabilityWindow })
          appts product_duration_minutes with
      | error e =>
        rw [h2] at hres
        cases hres
      | ok l =>
        rw [h2] at hres
        cases hres
        obtain ⟨w', _, rfl⟩ := List.mem_map.mp hmem
        rfl

/-- Witness for C3 at window 0–100, busy 30–60, minimum duration 20,
candidate fragment 0–30. -/
theorem c3_split_fragments_witness :
    ((0 : Int) < 100 ∧ (30 : Int) < 60 ∧ ((30 : Int) < 100 ∧ (0 : Int) < 60))
    ∧ ((mkW 0 30 ∈ filteredSplit (mkW 0 100) (mkA 30 60) 20 ↔
        (((0 : Int) < 30 ∧ mkW 0 30 = mkW 0 30)
          ∨ ((60 : Int) < 100 ∧ mkW 0 30 = mkW 60 100))
        ∧ (20 : Int) ≤ (mkW 0 30).duration_minutes)
      ∧ ((30 : Int) ≤ 0 → (100 : Int) ≤ 60 →
          split_window (mkW 0 100) (dt 30) (dt 60) = [])
      ∧ ((0 : Int) < 30 → (60 : Int) < 100 →
          split_window (mkW 0 100) (dt 30) (dt 60) = [mkW 0 30, mkW 60 100])) :=
  ⟨⟨by decide, by decide, by decide, by decide⟩,
    c3_split_fragments (mkW 0 100) (mkA 30 60) 20 (mkW 0 30)
      (by decide) (by decide) ⟨by decide, by decide⟩⟩

/-- Witness for C4 at window 0–50, busy 60–70 (strictly clear of the
window), minimum duration 20. -/
theorem c4_split_step_boundary_witness :
    ((0 : Int) < 50 ∧ (60 : Int) < 70)
    ∧ (((70 : Int) < 0 ∨ (50 : Int) < 60 →
        reduceWindowsImpl [mkW 0 50] [mkA 60 70] 20 = .ok [mkW 0 50])
      ∧ ((70 : Int) = 0 →
        reduceWindowsImpl [mkW 0 50] [mkA 60 70] 20 =
          .ok (if (20 : Int) ≤ (mkW 0 50).duration_minutes then [mkW 70 50] else []))
      ∧ ((60 : Int) = 50 →
        reduceWindowsImpl [mkW 0 50] [mkA 60 70] 20 =
          .ok (if (20 : Int) ≤ (mkW 0 50).duration_minutes then [mkW 0 60] else []))) :=
  ⟨⟨by decide, by decide⟩,
    c4_split_step_boundary (mkW 0 50) (mkA 60 70) 20 (by decide) (by decide)⟩

/-- Witness for C7 on the Scenario B database: both resolved windows of
associate 1 are tagged with id 1 and the aggregate equals the flattened
per-provider results. -/
theorem c7_tagged_concatenation_witness :
    (get_availabilities dbScenB calScenB 0 7 20 2 =
      (mapResolve dbScenB calScenB 0 20 2
        (dbScenB.get_associates_by_location_product 2 7)).map List.flatten)
    ∧ ({ start_time := dt 540, end_time := dt 570,
          associate_id := some 1 } : AvailabilityWindow).associate_id = some 1 :=
  c7_tagged_concatenation dbScenB calScenB 0 7 20 2 1
    [{ start_time := dt 540, end_time := dt 570, associate_id := some 1 },
     { start_time := dt 645, end_time := dt 720, associate_id := some 1 }]
    { start_time := dt 540, end_time := dt 570, associate_id := some 1 }
    rfl (by decide)

/-- The Scenario B database with the provider directory listing
associate 1 twice. -/
def dbDup : DatabaseService :=
  { dbScenB with
    get_associates_by_location_product := fun _ _ => [⟨1, "cal-1"⟩, ⟨1, "cal-1"⟩] }

/-- Witness for C10: with associate 1 listed twice, the aggregate holds
its two Scenario B windows twice. -/
theorem c10_duplicate_provider_duplicates_windows_witness :
    get_availabilities dbDup calScenB 0 7 20 2 =
      .ok ([{ start_time := dt 540, end_time := dt 570, associate_id := some 1 },
            { start_time := dt 645, end_time := dt 720, associate_id := some 1 }] ++
           [{ start_time := dt 540, end_time := dt 570, associate_id := some 1 },
            { start_time := dt 645, end_time := dt 720, associate_id := some 1 }]) :=
  c10_duplicate_provider_duplicates_windows dbDup calScenB 0 7 20 2 ⟨1, "cal-1"⟩
    [{ start_time := dt 540, end_time := dt 570, associate_id := some 1 },
     { start_time := dt 645, end_time := dt 720, associate_id := some 1 }]
    rfl rfl
